import Mathlib

/-!
Verification development for the EEHelper class (eehelper/eehelper.py), a
helper for Google Earth Engine scripts.  The Earth Engine objects the code
manipulates (ee.Image, ee.ImageCollection, reducers, filters) are modelled
shallowly: an image is a list of named bands, each band a list of per-pixel
rational values, together with the metadata the helper reads (sensor
identifier, acquisition date, day of year) and symbolic records of the
lazily applied clip and mask operations.  Collections are lists of images.
Python strings are modelled as Lean strings, with the handful of string
operations the code uses (substring test, replace, strip, split, int
parsing) re-implemented structurally over character lists so that they
evaluate inside the kernel.
-/

/-! ### String utilities (models of the Python string operations used) -/

/-- Character-list test: is the first list a leading segment of the second? -/
def isPrefixCh : List Char → List Char → Bool
  | [], _ => true
  | _ :: _, [] => false
  | a :: as, b :: bs => a = b && isPrefixCh as bs

/-- Occurrence test for a character list inside another (Python infix test
on strings, the operator used on composite_function). -/
def containsCh (sub : List Char) : List Char → Bool
  | [] => isPrefixCh sub []
  | c :: rest => isPrefixCh sub (c :: rest) || containsCh sub rest

/-- Python substring membership on strings. -/
def containsSub (s sub : String) : Bool := containsCh sub.data s.data

/-- Fuel-indexed worker for replaceAllCh; the fuel bounds the scan length. -/
def replaceChAux : Nat → List Char → List Char → List Char → List Char
  | 0, _, _, _ => []
  | _ + 1, [], _, _ => []
  | n + 1, c :: rest, pat, rep =>
    if pat ≠ [] ∧ isPrefixCh pat (c :: rest) = true then
      rep ++ replaceChAux n (List.drop (pat.length - 1) rest) pat rep
    else
      c :: replaceChAux n rest pat rep

/-- Python str.replace: replace every non-overlapping occurrence of a
(non-empty) pattern, scanning left to right. -/
def replaceAll (s pat rep : String) : String :=
  ⟨replaceChAux s.data.length s.data pat.data rep.data⟩

/-- Whitespace recognizer for Python str.strip. -/
def isPyWs (c : Char) : Bool :=
  c = ' ' || c = '\t' || c = '\n' || c = '\r' || c = '\x0b' || c = '\x0c'

/-- Python str.strip(): drop whitespace from both ends. -/
def pyStrip (s : String) : String :=
  ⟨(((s.data.dropWhile isPyWs).reverse.dropWhile isPyWs).reverse)⟩

/-- Python str.split on a single separator character: every occurrence
splits, empty fields are kept. -/
def splitChOn (sep : Char) : List Char → List (List Char)
  | [] => [[]]
  | c :: rest =>
    let r := splitChOn sep rest
    if c = sep then [] :: r
    else
      match r with
      | [] => [[c]]
      | h :: t => (c :: h) :: t

/-- Split a string on the underscore character (Python split used when
parsing interval_mean bounds). -/
def splitUnderscore (s : String) : List String :=
  (splitChOn '_' s.data).map (fun l => ⟨l⟩)

/-- Decimal digit value, if the character is a digit. -/
def digitVal (c : Char) : Option Nat :=
  if '0' ≤ c ∧ c ≤ '9' then some (c.toNat - 48) else none

/-- Parse a non-empty all-digit character list. -/
def parseDigits : List Char → Option Nat
  | [] => none
  | [c] => digitVal c
  | c :: rest => do
    let d ← digitVal c
    let r ← parseDigits rest
    pure (d * 10 ^ rest.length + r)

/-- Model of Python int(str): optional surrounding whitespace, optional
sign, then decimal digits; anything else raises ValueError (here: none).
(PEP 515 underscore grouping is not modelled; no claim exercises it.) -/
def pyInt? (s : String) : Option Int :=
  match (pyStrip s).data with
  | '-' :: rest => (parseDigits rest).map (fun n => -(n : Int))
  | '+' :: rest => (parseDigits rest).map (fun n => (n : Int))
  | l => (parseDigits l).map (fun n => (n : Int))

/-- Lexicographic character-list comparison (the order Python and the
Earth Engine server use on ASCII strings). -/
def chLt : List Char → List Char → Bool
  | [], [] => false
  | [], _ :: _ => true
  | _ :: _, [] => false
  | a :: as, b :: bs => if a < b then true else if b < a then false else chLt as bs

/-- Strict lexicographic order on strings. -/
def strLt (a b : String) : Bool := chLt a.data b.data

/-- Model of ee.String.compareTo: negative, zero or positive according to
the lexicographic comparison; zero exactly on equal strings. -/
def strCompareTo (a b : String) : Int :=
  if strLt a b then -1 else if strLt b a then 1 else 0

/-- Python str.lower restricted to ASCII (the method names looked up by
add_indices are ASCII). -/
def asciiLower (s : String) : String :=
  ⟨s.data.map (fun c => if 'A' ≤ c ∧ c ≤ 'Z' then Char.ofNat (c.toNat + 32) else c)⟩

/-! ### The image and helper-configuration model -/

/-- One band: the value at pixel p is entry p of the list. -/
abbrev BandVals := List ℚ

/-- Model of an ee.Image: named bands over a common pixel grid, the
metadata the helper reads, an abstract spatial extent (the regions the
footprint intersects), and symbolic records of the clip and update-mask
operations the external engine would apply lazily. -/
structure EEImage where
  bands : List (String × BandVals) := []
  satellite : String := ""
  date : String := ""
  doy : Nat := 1
  extent : List String := []
  clips : List String := []
  masks : List BandVals := []
deriving DecidableEq, Repr

/-- Band names of an image, in band order. -/
def bandNames (img : EEImage) : List String := img.bands.map Prod.fst

/-- Values of the named band; Earth Engine reports a missing band as an
error at evaluation time, which the total model renders as an empty grid
(every claim below supplies the bands it reads). -/
def bandVals (img : EEImage) (name : String) : BandVals :=
  (img.bands.lookup name).getD []

/-- Value of the named band at one pixel. -/
def bandValAt (img : EEImage) (name : String) (p : Nat) : ℚ :=
  (bandVals img name).getD p 0

/-- Values of the first band (binary band operations on single-band images
match bands positionally). -/
def firstBandVals (img : EEImage) : BandVals :=
  match img.bands with
  | [] => []
  | b :: _ => b.2

/-- img.multiply(c) for a constant c: every band value is multiplied. -/
def imgScale (c : ℚ) (img : EEImage) : EEImage :=
  { img with bands := img.bands.map (fun nb => (nb.1, nb.2.map (fun v => v * c))) }

/-- img.divide(c) for a constant c. -/
def imgDivScalar (img : EEImage) (c : ℚ) : EEImage :=
  { img with bands := img.bands.map (fun nb => (nb.1, nb.2.map (fun v => v / c))) }

/-- img.multiply(img): square every band value. -/
def imgSq (img : EEImage) : EEImage :=
  { img with bands := img.bands.map (fun nb => (nb.1, nb.2.map (fun v => v * v))) }

/-- img.select(names): the named bands, in the order requested. -/
def imgSelect (img : EEImage) (names : List String) : EEImage :=
  { img with bands := names.filterMap (fun n => (img.bands.lookup n).map (fun vs => (n, vs))) }

/-- a.addBands(b): append the bands of b after those of a. -/
def imgAddBands (a b : EEImage) : EEImage :=
  { a with bands := a.bands ++ b.bands }

/-- img.select([0],[name]): keep the first band under a new name. -/
def imgRenameSingle (img : EEImage) (name : String) : EEImage :=
  { img with bands :=
      match img.bands with
      | [] => []
      | b :: _ => [(name, b.2)] }

/-- img.clip(region): recorded symbolically (clipping is geometric and is
performed by the external engine). -/
def imgClip (img : EEImage) (region : String) : EEImage :=
  { img with clips := img.clips ++ [region] }

/-- Helper-configuration state: the EEHelper object constructed by
EEHelper.__init__ (scale_factor, const, index_list, composite_index,
composite_function). -/
structure EEHelper where
  scale_factor : ℚ := 1
  const : ℚ := 0.5
  index_list : Option (List String) := none
  composite_index : Option String := some "NDVI"
  composite_function : String := "median"
deriving DecidableEq, Repr

/-! ### Index Engine: the per-pixel band-algebra methods of EEHelper -/

/-- img.normalizedDifference([b1, b2]): (b1 - b2) / (b1 + b2) as a single
band (division is the total field division of the model; the engine's
masking of zero denominators is out of the pixel-value model). -/
def normalizedDifference (img : EEImage) (b1 b2 : String) : EEImage :=
  { img with bands :=
      [("nd", List.zipWith (fun a b => (a - b) / (a + b)) (bandVals img b1) (bandVals img b2))] }

/-- EEHelper.ndvi: normalizedDifference of NIR and RED, renamed NDVI,
multiplied by the configured scale factor. -/
def ndvi (self : EEHelper) (img : EEImage) : EEImage :=
  imgScale self.scale_factor (imgRenameSingle (normalizedDifference img "NIR" "RED") "NDVI")

/-- EEHelper.vari: (RED - GREEN) / (RED + GREEN - BLUE), renamed VARI,
multiplied by the scale factor. -/
def vari (self : EEHelper) (img : EEImage) : EEImage :=
  imgScale self.scale_factor
    { img with bands :=
        [("VARI",
          List.zipWith (fun n d => n / d)
            (List.zipWith (fun r g => r - g) (bandVals img "RED") (bandVals img "GREEN"))
            (List.zipWith (fun rg b => rg - b)
              (List.zipWith (fun r g => r + g) (bandVals img "RED") (bandVals img "GREEN"))
              (bandVals img "BLUE")))] }

/-- EEHelper.evi: (NIR - RED) / (NIR + 6 RED - 7.5 BLUE + 1), renamed EVI,
multiplied by 2.5 and the scale factor. -/
def evi (self : EEHelper) (img : EEImage) : EEImage :=
  imgScale self.scale_factor (imgScale 2.5
    { img with bands :=
        [("EVI",
          List.zipWith (fun n d => n / d)
            (List.zipWith (fun n r => n - r) (bandVals img "NIR") (bandVals img "RED"))
            (List.zipWith (fun s b => s - 7.5 * b + 1)
              (List.zipWith (fun n r => n + r * 6) (bandVals img "NIR") (bandVals img "RED"))
              (bandVals img "BLUE")))] })

/-- EEHelper.ndwi: normalizedDifference of NIR and SWIR2, renamed NDWI,
multiplied by the scale factor. -/
def ndwi (self : EEHelper) (img : EEImage) : EEImage :=
  imgScale self.scale_factor (imgRenameSingle (normalizedDifference img "NIR" "SWIR2") "NDWI")

/-- EEHelper.nbr: normalizedDifference of NIR and SWIR1, renamed NBR,
multiplied by the scale factor. -/
def nbr (self : EEHelper) (img : EEImage) : EEImage :=
  imgScale self.scale_factor (imgRenameSingle (normalizedDifference img "NIR" "SWIR1") "NBR")

/-- Truncation of a rational toward zero (the behavior of the engine's
integer casts on in-range values). -/
def qtrunc (q : ℚ) : ℤ := Int.tdiv q.num q.den

/-- ee int16 cast: truncate toward zero and clamp to the signed 16-bit
range. -/
def int16q (q : ℚ) : ℤ := max (-32768) (min 32767 (qtrunc q))

/-- Apply the int16 cast to every band value of an image. -/
def imgToInt16 (img : EEImage) : EEImage :=
  { img with bands := img.bands.map (fun nb => (nb.1, nb.2.map (fun v => ((int16q v : ℤ) : ℚ)))) }

/-- EEHelper.savi: (NIR - RED)(1 + const) / (NIR + RED + const), renamed
SAVI, multiplied by the scale factor, cast to int16. -/
def savi (self : EEHelper) (img : EEImage) : EEImage :=
  imgToInt16 (imgScale self.scale_factor
    { img with bands :=
        [("SAVI",
          List.zipWith (fun n d => n / d)
            ((List.zipWith (fun n r => n - r) (bandVals img "NIR") (bandVals img "RED")).map
              (fun v => v * (1 + self.const)))
            (List.zipWith (fun s c => s + c)
              (List.zipWith (fun n r => n + r) (bandVals img "NIR") (bandVals img "RED"))
              ((bandVals img "RED").map (fun _ => self.const))))] })

/-- The index methods reachable from add_indices by lowercased name via
getattr(self, index.lower(), None).  Requested names that are not
attributes are skipped, as in the source.  (An index_list entry naming a
resolvable non-index attribute, such as add_suffix, would be called on
the image and typically raise; the total model returns none there too —
no claim below exercises such entries.) -/
def index_method (self : EEHelper) (name : String) : Option (EEImage → EEImage) :=
  if asciiLower name = "ndvi" then some (ndvi self)
  else if asciiLower name = "vari" then some (vari self)
  else if asciiLower name = "evi" then some (evi self)
  else if asciiLower name = "ndwi" then some (ndwi self)
  else if asciiLower name = "nbr" then some (nbr self)
  else if asciiLower name = "savi" then some (savi self)
  else none

/-- EEHelper.add_indices: divide a float copy of the input by the scale
factor, then append each recognized requested index band to the original
image; unrecognized names are skipped.  (Python iterates self.index_list
directly and would raise a TypeError when it is None; the claims below
only call this with a configured list.) -/
def add_indices (self : EEHelper) (in_image : EEImage) : EEImage :=
  let temp_image := imgDivScalar in_image self.scale_factor
  (self.index_list.getD []).foldl
    (fun acc index =>
      match index_method self index with
      | some func => imgAddBands acc (func temp_image)
      | none => acc)
    in_image

/-! ### Sensor Harmonization -/

/-- One corrected band: select src, rename to dst, multiply by the gain,
add the offset, cast to int16. -/
def corrBand (img : EEImage) (src dst : String) (gain offset : ℚ) : String × BandVals :=
  (dst, (bandVals img src).map (fun v => ((int16q (v * gain + offset) : ℤ) : ℚ)))

/-- One carried-through band: select src, rename to dst, cast to int16. -/
def castBand (img : EEImage) (src dst : String) : String × BandVals :=
  (dst, (bandVals img src).map (fun v => ((int16q v : ℤ) : ℚ)))

/-- EEHelper.ls8_sr_corr: Landsat 8 surface reflectance scaled to the
Landsat 7 calibration (Roy et al. 2016); properties are carried over. -/
def ls8_sr_corr (img : EEImage) : EEImage :=
  { img with bands :=
      [corrBand img "B2" "BLUE" 0.8850 183,
       corrBand img "B3" "GREEN" 0.9317 123,
       corrBand img "B4" "RED" 0.9372 123,
       corrBand img "B5" "NIR" 0.8339 448,
       corrBand img "B6" "SWIR1" 0.8639 306,
       corrBand img "B7" "SWIR2" 0.9165 116,
       castBand img "pixel_qa" "PIXEL_QA",
       castBand img "radsat_qa" "RADSAT_QA"] }

/-- EEHelper.ls5_sr_corr: Landsat 5 surface reflectance scaled to the
Landsat 7 calibration (Sulla-Menashe et al. 2016). -/
def ls5_sr_corr (img : EEImage) : EEImage :=
  { img with bands :=
      [corrBand img "B1" "BLUE" 0.91996 37,
       corrBand img "B2" "GREEN" 0.92764 84,
       corrBand img "B3" "RED" 0.8881 98,
       corrBand img "B4" "NIR" 0.95057 38,
       corrBand img "B5" "SWIR1" 0.96525 29,
       corrBand img "B7" "SWIR2" 0.99601 20,
       castBand img "pixel_qa" "PIXEL_QA",
       castBand img "radsat_qa" "RADSAT_QA"] }

/-- The inline Landsat 7 branch of ls_sr_band_correction: rename the
native bands to the canonical schema and cast to int16, with no gain or
offset. -/
def ls7_sr_rename (img : EEImage) : EEImage :=
  { img with bands :=
      [castBand img "B1" "BLUE",
       castBand img "B2" "GREEN",
       castBand img "B3" "RED",
       castBand img "B4" "NIR",
       castBand img "B5" "SWIR1",
       castBand img "B7" "SWIR2",
       castBand img "pixel_qa" "PIXEL_QA",
       castBand img "radsat_qa" "RADSAT_QA"] }

/-- EEHelper.ls_sr_band_correction: the nested ee.Algorithms.If dispatch
on the SATELLITE property.  compareTo returns a nonzero number (truthy)
exactly when the strings differ, so the outer branch tests for not
LANDSAT_8 and the inner one for not LANDSAT_5. -/
def ls_sr_band_correction (img : EEImage) : EEImage :=
  if strCompareTo img.satellite "LANDSAT_8" ≠ 0 then
    if strCompareTo img.satellite "LANDSAT_5" ≠ 0 then ls7_sr_rename img
    else ls5_sr_corr img
  else ls8_sr_corr img

/-- EEHelper.ls_sr_only_clear: masks from bit 1 of PIXEL_QA and from
RADSAT_QA equal to zero, recorded symbolically as updateMask operations
(the engine applies masks at evaluation time). -/
def ls_sr_only_clear (img : EEImage) : EEImage :=
  let qa_mask := (bandVals img "PIXEL_QA").map
    (fun v => (((qtrunc v).toNat &&& 2 : ℕ) : ℚ))
  let ra_mask := (bandVals img "RADSAT_QA").map
    (fun v => if v = 0 then (1 : ℚ) else 0)
  { img with masks := img.masks ++ [qa_mask, ra_mask] }

/-- EEHelper.band_with_properties with the default band argument: keep
band 0 and the properties. -/
def band_with_properties (img : EEImage) : EEImage :=
  { img with bands :=
      match img.bands with
      | [] => []
      | b :: _ => [b] }

/-! ### Collection filters (models of the engine primitives get_images uses) -/

/-- ee.ImageCollection.filterBounds: keep the images whose footprint
intersects the given region (intersection is abstracted by the extent
list of each image). -/
def filterBounds (region : String) (coll : List EEImage) : List EEImage :=
  coll.filter (fun img => img.extent.contains region)

/-- ee.ImageCollection.filterDate: start inclusive, end exclusive, on the
lexicographically ordered ISO date strings. -/
def filterDate (start_date end_date : String) (coll : List EEImage) : List EEImage :=
  coll.filter (fun img => !strLt img.date start_date && strLt img.date end_date)

/-- ee.Filter.calendarRange on the day-of-year field: inclusive range. -/
def filterCalendarRange (start_julian end_julian : Nat) (coll : List EEImage) : List EEImage :=
  coll.filter (fun img => start_julian ≤ img.doy && img.doy ≤ end_julian)

/-! ### Reducers -/

/-- The reducers composite_image can resolve. -/
inductive EEReducer where
  | mean
  | median
  | min
  | max
  | sum
  | percentile (p : ℤ)
  | intervalMean (lo hi : ℤ)
deriving DecidableEq, Repr

/-- Insertion into a sorted list of rationals. -/
def insertSorted (x : ℚ) : List ℚ → List ℚ
  | [] => [x]
  | y :: ys => if x ≤ y then x :: y :: ys else y :: insertSorted x ys

/-- Insertion sort (structural, so it evaluates in the kernel). -/
def sortQ (l : List ℚ) : List ℚ := l.foldr insertSorted []

/-- Sum of a list of rationals. -/
def sumQ (l : List ℚ) : ℚ := l.foldl (fun a b => a + b) 0

/-- Apply a reducer to the per-pixel list of values collected across the
collection.  The statistical reducers are external engine primitives; they
are modelled by the standard formulas (median averages the two middle
elements on even counts, percentile is nearest-rank, interval mean is the
mean of the slice between the two percentile ranks).  The engine returns
no-data on an empty input; the total model returns 0 there. -/
def reduceVals (r : EEReducer) (vals : List ℚ) : ℚ :=
  match r with
  | .mean => sumQ vals / (vals.length : ℚ)
  | .median =>
    let s := sortQ vals
    let n := s.length
    if n % 2 = 1 then s.getD (n / 2) 0
    else (s.getD (n / 2 - 1) 0 + s.getD (n / 2) 0) / 2
  | .min =>
    match vals with
    | [] => 0
    | v :: vs => vs.foldl (fun a b => if b < a then b else a) v
  | .max =>
    match vals with
    | [] => 0
    | v :: vs => vs.foldl (fun a b => if a < b then b else a) v
  | .sum => sumQ vals
  | .percentile p =>
    let s := sortQ vals
    let n := s.length
    if n = 0 then 0
    else s.getD (Int.toNat (max 0 (min ((n : ℤ) - 1) ((p * n + 99) / 100 - 1)))) 0
  | .intervalMean lo hi =>
    let s := sortQ vals
    let n := s.length
    if n = 0 then 0
    else
      let a := Int.toNat (max 0 (min ((n : ℤ) - 1) (lo * n / 100)))
      let b := max (a + 1) (Int.toNat (min (n : ℤ) ((hi * n + 99) / 100)))
      let seg := (s.drop a).take (b - a)
      sumQ seg / (seg.length : ℚ)

/-- ee.ImageCollection.reduce: reduce every band of the first image's
schema across the collection, pixel by pixel.  (The engine also suffixes
the reducer name onto the band names; the suffix is dropped here — no
downstream use in the helper depends on it, since the only reduced rasters
are consumed positionally or rebuilt by qualityMosaic.) -/
def collReduce (r : EEReducer) (coll : List EEImage) : EEImage :=
  match coll with
  | [] => {}
  | first :: _ =>
    { first with bands :=
        first.bands.map (fun nb =>
          (nb.1,
           (List.range nb.2.length).map (fun p =>
             reduceVals r (coll.map (fun img => bandValAt img nb.1 p))))) }

/-! ### qualityMosaic -/

/-- Quality value of an image at a pixel. -/
def qualityAt (img : EEImage) (p : Nat) : ℚ := bandValAt img "quality" p

/-- Per-pixel argmax over the candidate images: a fold that keeps the
current best image, replacing it only on a strictly larger quality value
for this pixel. -/
def pickBest (p : Nat) (best : EEImage) (rest : List EEImage) : EEImage :=
  rest.foldl (fun b i => if qualityAt b p < qualityAt i p then i else b) best

/-- ee.ImageCollection.qualityMosaic on the quality band: for every pixel
take all band values from the image with the highest quality score. -/
def qualityMosaic : List EEImage → EEImage
  | [] => {}
  | first :: rest =>
    { first with bands :=
        first.bands.map (fun nb =>
          (nb.1,
           (List.range nb.2.length).map (fun p =>
             bandValAt (pickBest p first rest) nb.1 p))) }

/-! ### Collection Builder: EEHelper.get_images -/

/-- Result of getattr(self, value, None) on an EEHelper object, as seen
by the map branch of get_images: either a unary image-to-image method,
which collection.map applies to every image, or some other attribute
(a method of a different arity, a method that issues synchronous engine
calls, a method returning a non-image, or a plain data field), which
getattr still resolves but which collection.map cannot apply as an image
transform. -/
inductive EEAttr where
  | transform (f : EEImage → EEImage)
  | unmappable

/-- Names of the form __x__: the attribute machinery every Python object
inherits (such as __init__ and __repr__) resolves under getattr.  The
model classifies all such names as resolvable-but-unmappable; this
over-approximates on dunder names the object does not actually have,
which only shrinks the domain of the silent-skip theorem below. -/
def isDunderName (name : String) : Bool :=
  name.data.length ≥ 4 && isPrefixCh ['_', '_'] name.data &&
    isPrefixCh ['_', '_'] name.data.reverse

/-- Model of getattr(self, value, None) on an EEHelper object.  The unary
image-to-image methods are returned as mappable transforms; every other
attribute of the object — the multi-argument methods add_suffix,
add_elevation_bands and buffer_collection, the metadata expanders, the
export methods, get_images and composite_image themselves, the plain
data fields set by __init__, and the inherited __x__ machinery — still
resolves, but mapping it over an image collection is not an image
transform: the engine wrapper raises client-side for wrong arities and
non-callables, and the remaining cases produce values outside the image
model.  Only a name that is not an attribute at all gives none. -/
def eehelper_getattr (self : EEHelper) (name : String) : Option EEAttr :=
  if name = "ndvi" then some (.transform (ndvi self))
  else if name = "vari" then some (.transform (vari self))
  else if name = "evi" then some (.transform (evi self))
  else if name = "ndwi" then some (.transform (ndwi self))
  else if name = "nbr" then some (.transform (nbr self))
  else if name = "savi" then some (.transform (savi self))
  else if name = "add_indices" then some (.transform (add_indices self))
  else if name = "ls_sr_band_correction" then some (.transform ls_sr_band_correction)
  else if name = "ls_sr_only_clear" then some (.transform ls_sr_only_clear)
  else if name = "ls8_sr_corr" then some (.transform ls8_sr_corr)
  else if name = "ls5_sr_corr" then some (.transform ls5_sr_corr)
  else if name = "band_with_properties" then some (.transform band_with_properties)
  else if name = "add_suffix" ∨ name = "add_elevation_bands" ∨
      name = "buffer_collection" ∨ name = "expand_image_meta" ∨
      name = "expand_feature_meta" ∨ name = "expand_feature_coll_meta" ∨
      name = "get_images" ∨ name = "composite_image" ∨
      name = "export_image_to_drive" ∨ name = "export_coll_to_drive" ∨
      name = "scale_factor" ∨ name = "const" ∨ name = "index_list" ∨
      name = "composite_index" ∨ name = "composite_function" then
    some .unmappable
  else if isDunderName name then some .unmappable
  else none

/-- EEHelper.get_images.  Returns the updated helper object (the method
mutates self.index_list and self.scale_factor in the add_indices case),
the filtered and mapped collection, and the warnings emitted; none when a
map entry names a resolvable attribute that is not an image transform, in
which case the call leaves the modelled fragment (the engine wrapper
raises, or the mapped value is outside the image model).  The kwargs
dictionary is modelled as an association list iterated in order. -/
def get_images (self : EEHelper) (collection : List EEImage)
    (bounds : Option String) (year : Option Nat)
    (start_date end_date : Option String)
    (start_julian end_julian : Nat)
    (index_list : Option (List String)) (scale_factor : Option ℚ)
    (kwargs : List (String × String)) :
    Option (EEHelper × List EEImage × List String) :=
  let dates : Option String × Option String :=
    match year with
    | some y => (some (toString y ++ "-01-01"), some (toString y ++ "-12-31"))
    | none => (start_date, end_date)
  let coll :=
    match bounds with
    | some b => filterBounds b collection
    | none => collection
  let coll :=
    match dates with
    | (some s, some e) => filterDate s e coll
    | _ => coll
  let coll := filterCalendarRange start_julian end_julian coll
  kwargs.foldl
    (fun acc kv =>
      match acc with
      | none => none
      | some (self, coll, warns) =>
        if kv.1 = "map" then
          let self :=
            if kv.2 = "add_indices" then
              let self :=
                match index_list with
                | some il => { self with index_list := some il }
                | none => self
              match scale_factor with
              | some sf => { self with scale_factor := sf }
              | none => self
            else self
          match eehelper_getattr self kv.2 with
          | some (.transform func) => some (self, coll.map func, warns)
          | some .unmappable => none
          | none => some (self, coll, warns)
        else
          some (self, coll, warns ++ ["The function " ++ kv.1 ++ " is not implemented"]))
    (some (self, coll, []))

/-! ### Temporal Compositor: EEHelper.composite_image -/

/-- The reducer-resolution chain of composite_image: the if/elif cascade
on self.composite_function.  Returns the resolved reducer together with
the warnings emitted, or the ValueError message when the percentile or
interval_mean bounds fail to parse as integers (Python raises there). -/
def resolve_reducer (cf : String) : Except String (EEReducer × List String) :=
  if cf = "mean" ∨ cf = "rms" then .ok (.mean, [])
  else if cf = "median" then .ok (.median, [])
  else if cf = "min" then .ok (.min, [])
  else if cf = "max" then .ok (.max, [])
  else if cf = "sum" ∨ cf = "diag" then .ok (.sum, [])
  else if containsSub cf "percentile" then
    match pyInt? (pyStrip (replaceAll cf "percentile_" "")) with
    | some p => .ok (.percentile p, [])
    | none => .error "ValueError: invalid percentile bound"
  else if containsSub cf "interval_mean" then
    match (splitUnderscore (pyStrip (replaceAll cf "interval_mean_" ""))).mapM pyInt? with
    | some [lo, hi] =>
      if lo > hi then .ok (.intervalMean hi lo, [])
      else .ok (.intervalMean lo hi, [])
    | _ => .error "ValueError: invalid interval_mean bounds"
  else
    .ok (.median, ["Supplied reducer " ++ cf ++ " is not implemented. Using default: median"])

/-- The transient quality band of the quality-mosaic branch:
image.select([index]).subtract(index_band).abs().multiply(-1)
.rename(quality). -/
def quality_band_img (idx : String) (index_band image : EEImage) : EEImage :=
  { image with bands :=
      [("quality",
        List.zipWith (fun a b => |a - b| * (-1))
          (firstBandVals (imgSelect image [idx]))
          (firstBandVals index_band))] }

/-- EEHelper.composite_image.  Returns the warnings emitted and the
composite (none when reducer resolution raises).  The band_selector
parameter is accepted, as in the source, where it is never read. -/
def composite_image (self : EEHelper) (collection : List EEImage)
    (region : Option String) (band_selector : Option (List String))
    (band_names : Option (List String)) :
    List String × Option EEImage :=
  let collection := collection.map (fun x => imgScale self.scale_factor x)
  match resolve_reducer self.composite_function with
  | .error _ => ([], none)
  | .ok (reducer, warns) =>
    let collection :=
      match band_names with
      | some bn => collection.map (fun i => imgSelect i bn)
      | none => collection
    let out_img :=
      match self.composite_index with
      | none =>
        if self.composite_function = "rms" ∨ self.composite_function = "diag" then
          collReduce reducer (collection.map imgSq)
        else
          collReduce reducer collection
      | some idx =>
        let index_band := collReduce reducer (collection.map (fun i => imgSelect i [idx]))
        let with_dist := collection.map (fun image =>
          imgAddBands image (quality_band_img idx index_band image))
        let out := qualityMosaic with_dist
        imgSelect out ((bandNames out).filter (fun n => !(["quality"].contains n)))
    match region with
    | some r => (warns, some (imgClip out_img r))
    | none => (warns, some out_img)

/-! ### Export Pipeline: EEHelper.export_coll_to_drive -/

/-- The sequential export loop of export_coll_to_drive: submit one job per
image, in order.  The submission of one image (export_image_to_drive:
metadata fetch, Drive task creation and start) is abstracted by the submit
argument; an exception from it propagates out of the plain Python for
loop, so the loop stops at the first error.  Returns the images whose
submission was attempted, and the propagated error if any. -/
def export_loop (submit : EEImage → Except String Unit) :
    List EEImage → List EEImage × Option String
  | [] => ([], none)
  | img :: rest =>
    match submit img with
    | .ok _ =>
      let r := export_loop submit rest
      (img :: r.1, r.2)
    | .error e => ([img], some e)

/-- EEHelper.export_coll_to_drive: space-filter the collection by the
region, then submit one export job per remaining image sequentially. -/
def export_coll_to_drive (collection : List EEImage) (region : String)
    (submit : EEImage → Except String Unit) : List EEImage × Option String :=
  export_loop submit (filterBounds region collection)

/-! ### Helper lemmas -/

/-- Lookup at the head key. -/
theorem lookup_cons_self {k : String} {v : BandVals} {tl : List (String × BandVals)} :
    ((k, v) :: tl).lookup k = some v := by
  simp [List.lookup_cons]

/-- Lookup skips a head entry with a different key. -/
theorem lookup_cons_ne {k n : String} {v : BandVals} {tl : List (String × BandVals)}
    (h : n ≠ k) : ((k, v) :: tl).lookup n = tl.lookup n := by
  have hb : (n == k) = false := beq_eq_false_iff_ne.2 h
  simp [List.lookup_cons, hb]

/-- Every modelled reducer applied to a single value returns that value. -/
theorem reduceVals_singleton (r : EEReducer) (v : ℚ) : reduceVals r [v] = v := by
  cases r with
  | mean => simp [reduceVals, sumQ]
  | median => simp [reduceVals, sortQ, insertSorted]
  | min => simp [reduceVals]
  | max => simp [reduceVals]
  | sum => simp [reduceVals, sumQ]
  | percentile p =>
    have h : ∀ x : ℤ, Int.toNat (max 0 (min ((1 : ℤ) - 1) x)) = 0 := fun x => by omega
    simp [reduceVals, sortQ, insertSorted, h]
  | intervalMean lo hi =>
    have ha : ∀ x : ℤ, Int.toNat (max 0 (min ((1 : ℤ) - 1) x)) = 0 := fun x => by omega
    have hb : ∀ y : ℤ, max (0 + 1) (Int.toNat (min (1 : ℤ) y)) = 1 := fun y => by omega
    simp [reduceVals, sortQ, insertSorted, sumQ, ha, hb]

/-- Reading every index of a list back with getD reconstructs the list. -/
theorem range_map_getD (l : List ℚ) :
    (List.range l.length).map (fun p => l.getD p 0) = l := by
  apply List.ext_getElem (by simp)
  intro i h1 h2
  simp only [List.getElem_map, List.getElem_range]
  exact List.getD_eq_getElem l 0 h2

/-- In a band list without duplicate names, lookup finds the member. -/
theorem lookup_of_mem_nodup {bs : List (String × BandVals)} {n : String} {vs : BandVals}
    (hnd : (bs.map Prod.fst).Nodup) (hm : (n, vs) ∈ bs) : bs.lookup n = some vs := by
  induction bs with
  | nil => cases hm
  | cons b tl ih =>
    obtain ⟨k, v⟩ := b
    have hnd' : (k :: tl.map Prod.fst).Nodup := by
      simpa only [List.map_cons] using hnd
    rcases List.mem_cons.1 hm with h | h
    · cases h
      exact lookup_cons_self
    · have hk : n ≠ k := by
        intro he
        subst he
        exact (List.nodup_cons.1 hnd').1 (List.mem_map.2 ⟨(n, vs), h, rfl⟩)
      rw [lookup_cons_ne hk]
      exact ih (List.nodup_cons.1 hnd').2 h

/-- A name present among the band names has a lookup value. -/
theorem lookup_isSome_of_mem {bs : List (String × BandVals)} {n : String}
    (hm : n ∈ bs.map Prod.fst) : ∃ vs, bs.lookup n = some vs := by
  induction bs with
  | nil => cases hm
  | cons b tl ih =>
    obtain ⟨k, v⟩ := b
    by_cases he : n = k
    · subst he
      exact ⟨v, lookup_cons_self⟩
    · rcases List.mem_cons.1 hm with h | h
      · exact absurd h he
      · obtain ⟨vs, hvs⟩ := ih h
        exact ⟨vs, by rw [lookup_cons_ne he]; exact hvs⟩

/-- Reading the names of a duplicate-free band list back through lookup
(on that list extended to the right) reconstructs the band list. -/
theorem filterMap_lookup_append (bs ex : List (String × BandVals))
    (hnd : ((bs ++ ex).map Prod.fst).Nodup) :
    (bs.map Prod.fst).filterMap
      (fun n => ((bs ++ ex).lookup n).map (fun vs => (n, vs))) = bs := by
  induction bs with
  | nil => simp
  | cons b tl ih =>
    obtain ⟨k, v⟩ := b
    have hnd' : (k :: (tl ++ ex).map Prod.fst).Nodup := by
      simpa only [List.cons_append, List.map_cons] using hnd
    have hhead : k ∉ (tl ++ ex).map Prod.fst := (List.nodup_cons.1 hnd').1
    have htl : ((tl ++ ex).map Prod.fst).Nodup := (List.nodup_cons.1 hnd').2
    show ((k :: tl.map Prod.fst).filterMap
      (fun n => (((k, v) :: (tl ++ ex)).lookup n).map (fun vs => (n, vs)))) = (k, v) :: tl
    rw [List.filterMap_cons]
    rw [lookup_cons_self]
    show ((k, v) :: (tl.map Prod.fst).filterMap
      (fun n => (((k, v) :: (tl ++ ex)).lookup n).map (fun vs => (n, vs)))) = (k, v) :: tl
    have hcongr :
        (tl.map Prod.fst).filterMap
          (fun n => (((k, v) :: (tl ++ ex)).lookup n).map (fun vs => (n, vs))) =
        (tl.map Prod.fst).filterMap
          (fun n => ((tl ++ ex).lookup n).map (fun vs => (n, vs))) := by
      apply List.filterMap_congr
      intro n hn
      have hk : n ≠ k := by
        intro he
        subst he
        apply hhead
        rcases List.mem_map.1 hn with ⟨p, hp, hfst⟩
        exact List.mem_map.2 ⟨p, List.mem_append_left _ hp, hfst⟩
      rw [lookup_cons_ne hk]
    rw [hcongr, ih htl]

/-- Reducing a one-image collection returns that image unchanged, for
every reducer, provided its band names are distinct (the data-model
invariant: band names are unique within an image). -/
theorem collReduce_singleton (r : EEReducer) (X : EEImage)
    (hnd : (bandNames X).Nodup) : collReduce r [X] = X := by
  show { X with bands := _ } = X
  have hbands :
      X.bands.map (fun nb =>
        (nb.1,
         (List.range nb.2.length).map (fun p =>
           reduceVals r ([X].map (fun img => bandValAt img nb.1 p))))) = X.bands := by
    have hpt : ∀ nb ∈ X.bands,
        (nb.1,
         (List.range nb.2.length).map (fun p =>
           reduceVals r ([X].map (fun img => bandValAt img nb.1 p)))) = nb := by
      intro nb hm
      obtain ⟨n, vs⟩ := nb
      have hlook : X.bands.lookup n = some vs := lookup_of_mem_nodup hnd hm
      have hvals : ∀ p, bandValAt X n p = vs.getD p 0 := by
        intro p
        simp [bandValAt, bandVals, hlook]
      congr 1
      calc (List.range vs.length).map (fun p => reduceVals r [bandValAt X n p])
          = (List.range vs.length).map (fun p => vs.getD p 0) := by
            apply List.map_congr_left
            intro p _
            rw [hvals p, reduceVals_singleton]
        _ = vs := range_map_getD vs
    calc X.bands.map _ = X.bands.map id := List.map_congr_left hpt
      _ = X.bands := List.map_id X.bands
  rw [hbands]

/-- The quality mosaic of a one-image collection is that image, provided
its band names are distinct. -/
theorem qualityMosaic_singleton (X : EEImage) (hnd : (bandNames X).Nodup) :
    qualityMosaic [X] = X := by
  show { X with bands := _ } = X
  have hbands :
      X.bands.map (fun nb =>
        (nb.1,
         (List.range nb.2.length).map (fun p =>
           bandValAt (pickBest p X []) nb.1 p))) = X.bands := by
    have hpt : ∀ nb ∈ X.bands,
        (nb.1,
         (List.range nb.2.length).map (fun p =>
           bandValAt (pickBest p X []) nb.1 p)) = nb := by
      intro nb hm
      obtain ⟨n, vs⟩ := nb
      have hlook : X.bands.lookup n = some vs := lookup_of_mem_nodup hnd hm
      congr 1
      calc (List.range vs.length).map (fun p => bandValAt (pickBest p X []) n p)
          = (List.range vs.length).map (fun p => vs.getD p 0) := by
            apply List.map_congr_left
            intro p _
            simp [pickBest, bandValAt, bandVals, hlook]
        _ = vs := range_map_getD vs
    calc X.bands.map _ = X.bands.map id := List.map_congr_left hpt
      _ = X.bands := List.map_id X.bands
  rw [hbands]

/-- Scaling does not change band names. -/
theorem bandNames_imgScale (c : ℚ) (img : EEImage) :
    bandNames (imgScale c img) = bandNames img := by
  simp [bandNames, imgScale]

/-- Core computation for the one-image composite: with the reference
index band present, distinct band names and no preexisting quality band,
the composite is the scale-factor-scaled image. -/
theorem composite_single_core (self : EEHelper) (img : EEImage) (idx : String)
    (r : EEReducer) (w : List String)
    (hres : resolve_reducer self.composite_function = .ok (r, w))
    (hidx : self.composite_index = some idx)
    (hmem : idx ∈ bandNames img)
    (hq : "quality" ∉ bandNames img)
    (hnd : (bandNames img).Nodup)
    (band_selector : Option (List String)) :
    (composite_image self [img] none band_selector none).2 =
      some (imgScale self.scale_factor img) := by
  have hb : bandNames (imgScale self.scale_factor img) = bandNames img :=
    bandNames_imgScale _ _
  have hmem' : idx ∈ (imgScale self.scale_factor img).bands.map Prod.fst := by
    show idx ∈ bandNames (imgScale self.scale_factor img)
    rw [hb]
    exact hmem
  obtain ⟨svs, hlook⟩ := lookup_isSome_of_mem hmem'
  have hnd' : ((imgScale self.scale_factor img).bands.map Prod.fst).Nodup := by
    show (bandNames (imgScale self.scale_factor img)).Nodup
    rw [hb]
    exact hnd
  have hq' : "quality" ∉ (imgScale self.scale_factor img).bands.map Prod.fst := by
    show "quality" ∉ bandNames (imgScale self.scale_factor img)
    rw [hb]
    exact hq
  simp only [composite_image, List.map_cons, List.map_nil, hres, hidx]
  have hX : imgSelect (imgScale self.scale_factor img) [idx] =
      { imgScale self.scale_factor img with bands := [(idx, svs)] } := by
    simp [imgSelect, hlook]
  rw [hX]
  rw [collReduce_singleton r _ (by simp [bandNames])]
  have hqb : quality_band_img idx
      { imgScale self.scale_factor img with bands := [(idx, svs)] }
      (imgScale self.scale_factor img) =
      { imgScale self.scale_factor img with bands :=
          [("quality", List.zipWith (fun a b => |a - b| * (-1)) svs svs)] } := by
    simp [quality_band_img, hX, firstBandVals]
  rw [hqb]
  have hadd : imgAddBands (imgScale self.scale_factor img)
      { imgScale self.scale_factor img with bands :=
          [("quality", List.zipWith (fun a b => |a - b| * (-1)) svs svs)] } =
      { imgScale self.scale_factor img with bands :=
          (imgScale self.scale_factor img).bands ++
            [("quality", List.zipWith (fun a b => |a - b| * (-1)) svs svs)] } := rfl
  rw [hadd]
  have hnd_app : (((imgScale self.scale_factor img).bands ++
      [("quality", List.zipWith (fun a b => |a - b| * (-1)) svs svs)]).map Prod.fst).Nodup := by
    rw [List.map_append]
    simp only [List.map_cons, List.map_nil]
    exact List.Nodup.append hnd' (List.nodup_singleton _)
      (fun a ha hb2 => hq' ((List.mem_singleton.1 hb2) ▸ ha))
  rw [qualityMosaic_singleton _ (by
    show (((imgScale self.scale_factor img).bands ++
      [("quality", List.zipWith (fun a b => |a - b| * (-1)) svs svs)]).map Prod.fst).Nodup
    exact hnd_app)]
  have hfilter : List.filter (fun n => !(["quality"].contains n))
      (bandNames { imgScale self.scale_factor img with bands :=
          (imgScale self.scale_factor img).bands ++
            [("quality", List.zipWith (fun a b => |a - b| * (-1)) svs svs)] }) =
      List.map Prod.fst (imgScale self.scale_factor img).bands := by
    show List.filter (fun n => !(["quality"].contains n))
      (((imgScale self.scale_factor img).bands ++
        [("quality", List.zipWith (fun a b => |a - b| * (-1)) svs svs)]).map Prod.fst) = _
    rw [List.map_append, List.filter_append]
    simp only [List.map_cons, List.map_nil]
    have h1 : List.filter (fun n => !(["quality"].contains n))
        ((imgScale self.scale_factor img).bands.map Prod.fst) =
        (imgScale self.scale_factor img).bands.map Prod.fst := by
      apply List.filter_eq_self.2
      intro a ha
      have hne : a ≠ "quality" := fun he => hq' (he ▸ ha)
      simp [hne]
    have h2 : List.filter (fun n => !(["quality"].contains n)) ["quality"] = ([] : List String) := by
      simp
    rw [h1, h2, List.append_nil]
  rw [hfilter]
  have hrec : (((imgScale self.scale_factor img).bands.map Prod.fst).filterMap
      (fun n => ((((imgScale self.scale_factor img).bands ++
        [("quality", List.zipWith (fun a b => |a - b| * (-1)) svs svs)]).lookup n)).map
          (fun vs => (n, vs)))) = (imgScale self.scale_factor img).bands :=
    filterMap_lookup_append _ _ hnd_app
  simp only [imgSelect]
  rw [hrec]

/-- List.range 1 as a literal (helper for concrete evaluations). -/
theorem range_one : List.range 1 = [0] := rfl

/-- C1: quality-mosaic compositing on a one-image collection.  Amended
claim: for a one-image collection whose image carries the configured
reference index band, has pairwise distinct band names (the documented
data-model invariant) and no band already named quality, composite_image
with any resolvable reducer returns that image's bands multiplied by the
configured scale factor — hence unchanged exactly when scale_factor is 1 —
the transient quality band being dropped. -/
theorem composite_image_single_image (self : EEHelper) (img : EEImage) (idx : String)
    (r : EEReducer) (w : List String)
    (hres : resolve_reducer self.composite_function = .ok (r, w))
    (hidx : self.composite_index = some idx)
    (hmem : idx ∈ bandNames img)
    (hq : "quality" ∉ bandNames img)
    (hnd : (bandNames img).Nodup)
    (band_selector : Option (List String)) :
    (composite_image self [img] none band_selector none).2 =
      some (imgScale self.scale_factor img) :=
  composite_single_core self img idx r w hres hidx hmem hq hnd band_selector

/-- C1 counterexample: the claim literally states the image's bands come
back unchanged, but (a) with scale_factor 2 the single NDVI value 1 comes
back as 2, and (b) an image that already carries a band named quality
loses it, because the transient quality band is removed by name. -/
theorem composite_image_single_image_counterexample :
    (composite_image ({ scale_factor := 2 } : EEHelper)
      [{ bands := [("NDVI", [1])] }] none none none).2 ≠
      some { bands := [("NDVI", [1])] } ∧
    (composite_image ({ scale_factor := 1 } : EEHelper)
      [{ bands := [("NDVI", [1]), ("quality", [5])] }] none none none).2 ≠
      some { bands := [("NDVI", [1]), ("quality", [5])] } := by
  constructor
  · have h := composite_single_core ({ scale_factor := 2 } : EEHelper)
      { bands := [("NDVI", [1])] } "NDVI" .median [] rfl rfl
      (by decide) (by decide) (by decide) none
    rw [h]
    have hsc : imgScale 2 { bands := [("NDVI", [1])] } = { bands := [("NDVI", [2])] } := by
      norm_num [imgScale]
    rw [hsc]
    decide
  · have hresolve : resolve_reducer "median" =
        Except.ok (EEReducer.median, ([] : List String)) := rfl
    have b1 : ("NDVI" == "NDVI") = true := by decide
    have b2 : ("quality" == "NDVI") = false := by decide
    have b3 : ("quality" == "quality") = true := by decide
    have b4 : ("NDVI" == "quality") = false := by decide
    have c1 : (["quality"].contains "NDVI") = false := by decide
    have c2 : (["quality"].contains "quality") = true := by decide
    have d1 : ¬("NDVI" = "quality") := by decide
    have hval : (composite_image ({ scale_factor := 1 } : EEHelper)
      [{ bands := [("NDVI", [1]), ("quality", [5])] }] none none none).2 =
        some { bands := [("NDVI", [1])] } := by
      norm_num [composite_image, hresolve, imgScale, imgSelect, collReduce,
        quality_band_img, imgAddBands, qualityMosaic, firstBandVals, bandNames,
        bandValAt, bandVals, pickBest, reduceVals, sortQ, insertSorted, sumQ,
        range_one, List.lookup_cons, b1, b2, b3, b4, c1, c2, d1,
        List.filterMap_cons, List.filterMap_nil, List.zipWith_cons_cons,
        min_self, List.filter_cons, List.filter_nil]
    rw [hval]
    decide

/-- C1 witness: the amended theorem applied to a concrete helper with
scale factor 1 and a two-band image carrying NDVI. -/
theorem composite_image_single_image_witness :
    (composite_image ({ scale_factor := 1 } : EEHelper)
      [{ bands := [("NDVI", [3]), ("RED", [7])] }] none none none).2 =
      some (imgScale 1 { bands := [("NDVI", [3]), ("RED", [7])] }) :=
  composite_image_single_image ({ scale_factor := 1 } : EEHelper)
    { bands := [("NDVI", [3]), ("RED", [7])] } "NDVI" .median [] rfl rfl
    (by decide) (by decide) (by decide) none

/-- C9: the band_selector parameter of composite_image is never read —
any two values of it give identical results on every input; only
band_names affects band selection. -/
theorem composite_image_band_selector_unused (self : EEHelper)
    (collection : List EEImage) (region : Option String)
    (bs1 bs2 : Option (List String)) (band_names : Option (List String)) :
    composite_image self collection region bs1 band_names =
      composite_image self collection region bs2 band_names := rfl

/-- C10: get_images with map=add_indices and non-none index_list and
scale_factor arguments overwrites the helper configuration: the returned
helper is exactly the input helper with index_list and scale_factor
replaced, and every subsequent add_indices or composite_image call on the
returned helper behaves as with the overwritten configuration. -/
theorem get_images_mutates_config (self : EEHelper) (collection : List EEImage)
    (bounds : Option String) (year : Option Nat) (sd ed : Option String)
    (sj ej : Nat) (il : List String) (sf : ℚ) :
    (get_images self collection bounds year sd ed sj ej (some il) (some sf)
        [("map", "add_indices")]).map Prod.fst =
      some { self with index_list := some il, scale_factor := sf } ∧
    (∀ img, add_indices ((get_images self collection bounds year sd ed sj ej
        (some il) (some sf) [("map", "add_indices")]).getD (self, [], [])).1 img =
      add_indices { self with index_list := some il, scale_factor := sf } img) ∧
    (∀ c r bs bn, composite_image ((get_images self collection bounds year sd ed sj ej
        (some il) (some sf) [("map", "add_indices")]).getD (self, [], [])).1 c r bs bn =
      composite_image { self with index_list := some il, scale_factor := sf } c r bs bn) :=
  ⟨rfl, fun _ => rfl, fun _ _ _ _ => rfl⟩

/-- C4 counterexample: with year=2020 and the absolute range
2019-01-01..2019-12-31 both supplied, an image dated 2019-06-15 is
dropped — the year filter wins, while the claim's precedence rule would
keep it: the same call without the year keeps the image. -/
theorem get_images_year_precedence_counterexample :
    (get_images ({} : EEHelper) [{ bands := [("B", [1])], date := "2019-06-15" }]
      none (some 2020) (some "2019-01-01") (some "2019-12-31") 1 365 none none []).map
        (fun t => t.2.1) = some [] ∧
    (get_images ({} : EEHelper) [{ bands := [("B", [1])], date := "2019-06-15" }]
      none none (some "2019-01-01") (some "2019-12-31") 1 365 none none []).map
        (fun t => t.2.1) =
      some [{ bands := [("B", [1])], date := "2019-06-15" }] := by
  constructor
  · decide
  · decide

/-- C4 (amended): the year argument takes precedence in get_images: when
year is supplied, start_date and end_date are overwritten with Jan 1 and
Dec 31 of that year, so any two supplied absolute ranges give identical
results; the absolute range is honored only when year is none. -/
theorem get_images_year_precedence (self : EEHelper) (collection : List EEImage)
    (bounds : Option String) (y : Nat) (sd1 ed1 sd2 ed2 : Option String)
    (sj ej : Nat) (il : Option (List String)) (sf : Option ℚ)
    (kwargs : List (String × String)) :
    get_images self collection bounds (some y) sd1 ed1 sj ej il sf kwargs =
      get_images self collection bounds (some y) sd2 ed2 sj ej il sf kwargs := rfl

/-- C8 counterexample: an image acquired on day-of-year 366 (Dec 31 of
leap year 2020) is dropped by the default day-of-year window [1, 365] —
the filter is not a no-op. -/
theorem get_images_julian_counterexample :
    (get_images ({} : EEHelper)
      [{ bands := [("B", [1])], date := "2020-12-31", doy := 366 }]
      none none none none 1 365 none none []).map (fun t => t.2.1) = some [] := by
  decide

/-- C8 (amended): the day-of-year filter with start_julian=1 and
end_julian=365 keeps exactly the images whose day of year lies in
[1, 365]; on collections with no day-366 acquisition it is a no-op. -/
theorem get_images_julian_noop (self : EEHelper) (collection : List EEImage)
    (h : ∀ img ∈ collection, 1 ≤ img.doy ∧ img.doy ≤ 365) :
    get_images self collection none none none none 1 365 none none [] =
      some (self, collection, []) := by
  have hfc : filterCalendarRange 1 365 collection = collection := by
    apply List.filter_eq_self.2
    intro img hm
    have hd := h img hm
    simp [hd.1, hd.2]
  show some (self, filterCalendarRange 1 365 collection, []) = some (self, collection, [])
  rw [hfc]

/-- C8 witness: a mid-year image passes the default day-of-year window
untouched. -/
theorem get_images_julian_noop_witness :
    get_images ({} : EEHelper) [{ bands := [("B", [1])], doy := 50 }]
      none none none none 1 365 none none [] =
      some (({} : EEHelper), [{ bands := [("B", [1])], doy := 50 }], []) :=
  get_images_julian_noop ({} : EEHelper) [{ bands := [("B", [1])], doy := 50 }]
    (by decide)

/-- C6 counterexample: get_images with map=bogus (an attribute that does
not exist) leaves the collection unchanged and emits no warning at all —
the claim's promised warning never happens. -/
theorem get_images_unknown_transform_counterexample :
    (get_images ({} : EEHelper) [{ bands := [("B", [1])] }]
      none none none none 1 365 none none [("map", "bogus")]).map (fun t => t.2) =
      some ([{ bands := [("B", [1])] }], []) := by
  decide

/-- C6 (amended): a per-image transform name that getattr does not
resolve — a name that is no attribute of the helper at all — is skipped
silently: the collection passes through the map entry unchanged and no
warning is emitted (the warning branch of get_images fires only for
keyword keys other than map).  Resolvable attributes are never skipped:
the unary image methods are mapped over the collection, and the
remaining attributes leave the modelled fragment. -/
theorem get_images_unknown_transform (self : EEHelper) (collection : List EEImage)
    (name : String) (hr : eehelper_getattr self name = none) :
    get_images self collection none none none none 1 365 none none [("map", name)] =
      some (self, filterCalendarRange 1 365 collection, []) := by
  simp [get_images, hr]

/-- C6 witness: the amended theorem at the concrete unknown name bogus. -/
theorem get_images_unknown_transform_witness :
    get_images ({} : EEHelper) [{ bands := [("B", [7])], doy := 9 }]
      none none none none 1 365 none none [("map", "bogus")] =
      some (({} : EEHelper),
        filterCalendarRange 1 365 [{ bands := [("B", [7])], doy := 9 }], []) :=
  get_images_unknown_transform ({} : EEHelper) [{ bands := [("B", [7])], doy := 9 }]
    "bogus" rfl

/-- C7 counterexample: three in-region rasters, the second submission
fails: the first two submissions are attempted, the third is never
performed — partial failure aborts the remaining submissions, against the
claim. -/
theorem export_coll_abort_counterexample :
    export_coll_to_drive
      [{ bands := [("B", [1])], date := "a", extent := ["R"] },
       { bands := [("B", [2])], date := "b", extent := ["R"] },
       { bands := [("B", [3])], date := "c", extent := ["R"] }] "R"
      (fun img => if img.date = "b" then .error "submission failed" else .ok ()) =
      ([{ bands := [("B", [1])], date := "a", extent := ["R"] },
        { bands := [("B", [2])], date := "b", extent := ["R"] }],
       some "submission failed") := by
  decide

/-- C7 (amended): export_coll_to_drive submits one job per raster of the
space-filtered collection, in enumeration order, as long as every
submission succeeds; the first failing submission propagates out of the
loop and the remaining rasters are not submitted. -/
theorem export_coll_submits_all (collection : List EEImage) (region : String)
    (submit : EEImage → Except String Unit)
    (h : ∀ img ∈ filterBounds region collection, submit img = .ok ()) :
    export_coll_to_drive collection region submit =
      (filterBounds region collection, none) := by
  have aux : ∀ l : List EEImage, (∀ img ∈ l, submit img = .ok ()) →
      export_loop submit l = (l, none) := by
    intro l
    induction l with
    | nil => intro _; rfl
    | cons a tl ih =>
      intro hl
      have ha := hl a (List.mem_cons_self a tl)
      have htl := fun img hm => hl img (List.mem_cons_of_mem a hm)
      simp [export_loop, ha, ih htl]
  exact aux _ h

/-- C7 witness: two in-region rasters with an always-succeeding
submission are both submitted, in order. -/
theorem export_coll_submits_all_witness :
    export_coll_to_drive
      [{ bands := [("B", [1])], extent := ["R"] },
       { bands := [("B", [2])], extent := ["R"] }] "R" (fun _ => .ok ()) =
      (filterBounds "R"
        [{ bands := [("B", [1])], extent := ["R"] },
         { bands := [("B", [2])], extent := ["R"] }], none) :=
  export_coll_submits_all
    [{ bands := [("B", [1])], extent := ["R"] },
     { bands := [("B", [2])], extent := ["R"] }] "R" (fun _ => .ok ())
    (fun _ _ => rfl)

/-- The character-list order is irreflexive. -/
theorem chLt_irrefl : ∀ l : List Char, chLt l l = false := by
  intro l
  induction l with
  | nil => rfl
  | cons c cs ih => simp [chLt, lt_irrefl c, ih]

/-- Two character lists neither of which precedes the other are equal. -/
theorem chLt_total_eq : ∀ l1 l2 : List Char,
    chLt l1 l2 = false → chLt l2 l1 = false → l1 = l2 := by
  intro l1
  induction l1 with
  | nil =>
    intro l2 h1 _
    cases l2 with
    | nil => rfl
    | cons b bs => simp [chLt] at h1
  | cons a as ih =>
    intro l2 h1 h2
    cases l2 with
    | nil => simp [chLt] at h2
    | cons b bs =>
      by_cases hab : a < b
      · simp [chLt, hab] at h1
      · by_cases hba : b < a
        · simp [chLt, hba] at h2
        · have hd : a = b := le_antisymm (not_lt.1 hba) (not_lt.1 hab)
          have h1a : chLt as bs = false := by simpa [chLt, hab, hba] using h1
          have h2a : chLt bs as = false := by simpa [chLt, hab, hba] using h2
          rw [hd, ih bs h1a h2a]

/-- A string does not precede itself. -/
theorem strLt_self (a : String) : strLt a a = false := chLt_irrefl a.data

/-- The compareTo model returns zero exactly on equal strings. -/
theorem strCompareTo_eq_zero_iff (a b : String) : strCompareTo a b = 0 ↔ a = b := by
  constructor
  · intro h
    unfold strCompareTo at h
    by_cases h1 : strLt a b = true
    · rw [if_pos h1] at h
      exact absurd h (by decide)
    · rw [if_neg h1] at h
      by_cases h2 : strLt b a = true
      · rw [if_pos h2] at h
        exact absurd h (by decide)
      · have e1 : chLt a.data b.data = false := Bool.eq_false_iff.mpr h1
        have e2 : chLt b.data a.data = false := Bool.eq_false_iff.mpr h2
        cases a with
        | mk da =>
          cases b with
          | mk db => exact congrArg String.mk (chLt_total_eq da db e1 e2)
  · intro h
    subst h
    simp [strCompareTo, strLt_self]

/-- C3 counterexample: an image whose SATELLITE property is the unknown
identifier SENTINEL_2 is not rejected: it silently receives the Landsat 7
renaming (the innermost default branch), so unknown sensors get a default
transform instead of a reported error. -/
theorem ls_sr_band_correction_counterexample :
    ls_sr_band_correction
      { bands := [("B1", [5]), ("B2", [6]), ("B3", [7]), ("B4", [8]), ("B5", [9]),
        ("B7", [10]), ("pixel_qa", [322]), ("radsat_qa", [0])],
        satellite := "SENTINEL_2" } =
      { bands := [("BLUE", [5]), ("GREEN", [6]), ("RED", [7]), ("NIR", [8]),
        ("SWIR1", [9]), ("SWIR2", [10]), ("PIXEL_QA", [322]), ("RADSAT_QA", [0])],
        satellite := "SENTINEL_2" } := by
  decide

/-- C3 (amended): dispatch in ls_sr_band_correction is keyed by the
SATELLITE property: LANDSAT_8 gets the Landsat 8 correction, LANDSAT_5
the Landsat 5 correction, and every other identifier — unknown sensors
included — silently falls through to the Landsat 7 renaming with no gain
or offset and no error. -/
theorem ls_sr_band_correction_dispatch (img : EEImage) :
    ls_sr_band_correction img =
      if img.satellite = "LANDSAT_8" then ls8_sr_corr img
      else if img.satellite = "LANDSAT_5" then ls5_sr_corr img
      else ls7_sr_rename img := by
  have f1 : strCompareTo "LANDSAT_8" "LANDSAT_8" = 0 := by decide
  have f2 : strCompareTo "LANDSAT_5" "LANDSAT_8" ≠ 0 := by decide
  have f3 : strCompareTo "LANDSAT_5" "LANDSAT_5" = 0 := by decide
  by_cases h8 : img.satellite = "LANDSAT_8"
  · simp [ls_sr_band_correction, h8, f1]
  · have c8 : strCompareTo img.satellite "LANDSAT_8" ≠ 0 :=
      fun hc => h8 ((strCompareTo_eq_zero_iff _ _).1 hc)
    by_cases h5 : img.satellite = "LANDSAT_5"
    · simp [ls_sr_band_correction, h8, h5, f2, f3]
    · have c5 : strCompareTo img.satellite "LANDSAT_5" ≠ 0 :=
        fun hc => h5 ((strCompareTo_eq_zero_iff _ _).1 hc)
      simp [ls_sr_band_correction, c8, c5, h8, h5]

/-- The Landsat 8 BLUE correction at the concrete native value 100:
100 * 0.8850 + 183 = 271.5, truncated by the int16 cast to 271. -/
theorem ls8_blue_100 :
    bandVals (ls8_sr_corr { bands := [("B2", [100])] }) "BLUE" = [271] := by
  have hval : ((100 : ℚ) * 0.8850 + 183) = (⟨543, 2, by decide, by decide⟩ : ℚ) := by
    rw [Rat.mk'_eq_divInt, Rat.divInt_eq_div]
    norm_num
  have hint : int16q (⟨543, 2, by decide, by decide⟩ : ℚ) = 271 := by decide
  simp [ls8_sr_corr, corrBand, bandVals, List.lookup_cons, beq_self_eq_true,
    hval, hint]

/-- C2 counterexample: harmonizing BLUE=100 under the Landsat 8 transform
yields 271 (truncation of 271.5), not the claimed 273. -/
theorem ls8_corr_blue_counterexample :
    bandVals (ls8_sr_corr { bands := [("B2", [100])] }) "BLUE" = [271] ∧
    (271 : ℚ) ≠ 273 := by
  constructor
  · exact ls8_blue_100
  · norm_num

/-- C2 (amended): Landsat 8 harmonization maps every BLUE value v to the
int16 truncation of v * 0.8850 + 183; at v = 100 this gives
trunc(271.5) = 271 (the spec's round(...) = 273 is wrong on both the
rounding mode and the arithmetic). -/
theorem ls8_corr_blue_affine :
    (∀ img : EEImage, bandVals (ls8_sr_corr img) "BLUE" =
      (bandVals img "B2").map (fun v => ((int16q (v * 0.8850 + 183) : ℤ) : ℚ))) ∧
    bandVals (ls8_sr_corr { bands := [("B2", [100])] }) "BLUE" = [271] := by
  constructor
  · intro img
    simp [ls8_sr_corr, corrBand, bandVals, List.lookup_cons, beq_self_eq_true]
  · exact ls8_blue_100

/-- C5 counterexample: percentile_x is an unrecognized reducer
specification (percentile bounds must be integers), yet instead of the
claimed warn-and-use-median behavior, reducer resolution raises a
ValueError: the composite call produces no image and no warning, while
the median composite on the same input produces an image. -/
theorem composite_image_reducer_fallback_counterexample :
    composite_image ({ composite_function := "percentile_x" } : EEHelper)
      [{ bands := [("NDVI", [1])] }] none none none = ([], none) ∧
    (composite_image ({ composite_function := "median" } : EEHelper)
      [{ bands := [("NDVI", [1])] }] none none none).2 ≠ none := by
  constructor
  · rfl
  · have h := composite_single_core ({ composite_function := "median" } : EEHelper)
      { bands := [("NDVI", [1])] } "NDVI" .median [] rfl rfl
      (by decide) (by decide) (by decide) none
    rw [h]
    simp

/-- C5 (amended): an unrecognized reducer specification that does not
contain percentile or interval_mean produces a non-fatal warning and
exactly the median composite: the returned image equals the one computed
with composite_function = median on identical input, and the warning list
is non-empty.  (Unrecognized specifications containing percentile or
interval_mean raise a parse error instead of falling back.) -/
theorem composite_image_reducer_fallback (self : EEHelper) (collection : List EEImage)
    (region : Option String) (bsel bn : Option (List String))
    (h1 : self.composite_function ≠ "mean") (h2 : self.composite_function ≠ "rms")
    (h3 : self.composite_function ≠ "median") (h4 : self.composite_function ≠ "min")
    (h5 : self.composite_function ≠ "max") (h6 : self.composite_function ≠ "sum")
    (h7 : self.composite_function ≠ "diag")
    (h8 : containsSub self.composite_function "percentile" = false)
    (h9 : containsSub self.composite_function "interval_mean" = false) :
    (composite_image self collection region bsel bn).2 =
      (composite_image { self with composite_function := "median" }
        collection region bsel bn).2 ∧
    (composite_image self collection region bsel bn).1 ≠ [] := by
  have hres : resolve_reducer self.composite_function =
      .ok (.median, ["Supplied reducer " ++ self.composite_function ++
        " is not implemented. Using default: median"]) := by
    unfold resolve_reducer
    rw [if_neg (by simp [h1, h2]), if_neg h3, if_neg h4, if_neg h5,
      if_neg (by simp [h6, h7]), if_neg (by simp [h8]), if_neg (by simp [h9])]
  have hres2 : resolve_reducer "median" = .ok (.median, ([] : List String)) := rfl
  have hrd : ¬("median" = "rms" ∨ "median" = "diag") := by decide
  constructor
  · simp only [composite_image, hres, hres2]
    cases hci : self.composite_index with
    | none =>
      rw [if_neg (by simp [h2, h7]), if_neg hrd]
      cases region <;> simp
    | some idx => cases region <;> rfl
  · simp only [composite_image, hres]
    cases region with
    | none => simp
    | some r => simp

/-- C5 witness: the amended theorem at the unrecognized specification
bogus on a concrete one-image collection. -/
theorem composite_image_reducer_fallback_witness :
    (composite_image ({ composite_function := "bogus" } : EEHelper)
      [{ bands := [("NDVI", [1])] }] none none none).2 =
      (composite_image { ({ composite_function := "bogus" } : EEHelper) with
        composite_function := "median" } [{ bands := [("NDVI", [1])] }] none none none).2 ∧
    (composite_image ({ composite_function := "bogus" } : EEHelper)
      [{ bands := [("NDVI", [1])] }] none none none).1 ≠ [] :=
  composite_image_reducer_fallback ({ composite_function := "bogus" } : EEHelper)
    [{ bands := [("NDVI", [1])] }] none none none
    (by decide) (by decide) (by decide) (by decide) (by decide) (by decide) (by decide)
    (by decide) (by decide)
